import Mathlib

/-!
Shallow embedding of the function `rsp_analyze` from
`neurokit2/rsp/rsp_analyze.py`, together with proofs of the claims of the
specification about it.

The Python function is a dispatcher: it lowercases `method`, then

* for `method in ["event-related", "event", "epoch"]` it collects column
  names — the loop `for i in data: colnames = data[i].columns.values` over a
  dict of epochs rebinds `colnames` on each iteration, so only the columns of
  the last epoch survive, while a DataFrame contributes its own columns —
  raises `ValueError` when no collected name contains the substring `Label`,
  and otherwise calls `rsp_eventrelated(data, subepoch_rate=subepoch_rate)`;
* for `method in ["interval-related", "interval", "resting-state"]` it calls
  `rsp_intervalrelated(data, sampling_rate)` directly;
* for `method in ["auto"]` it computes a duration — for a dict, the length of
  the last epoch divided by `sampling_rate` (again a loop rebinding the
  variable `duration`); for a DataFrame with a `Label` column, the value of
  `data["Label"].value_counts()[0]` (the count of the most frequent label)
  divided by `sampling_rate`; otherwise `len(data)` divided by
  `sampling_rate` — and dispatches to interval-related iff `duration >= 10`;
* any other method leaves the local `features` unassigned, so the final
  `return features` raises `UnboundLocalError`.

The two collaborators `rsp_eventrelated` and `rsp_intervalrelated` are
external to the file, so the embedding records which one is invoked and with
which arguments instead of their numeric output.
-/

namespace NeuroKit

/-- Embedding of the Python `str.lower` method on one character: ASCII
letters `A`–`Z` (code points 65–90) are shifted by 32, everything else is
unchanged.  (Python also lowercases non-ASCII letters; every method string
the dispatcher compares against is ASCII, so the ASCII table is the relevant
fragment.) -/
def pyLowerChar (c : Char) : Char :=
  if 65 ≤ c.toNat ∧ c.toNat ≤ 90 then Char.ofNat (c.toNat + 32) else c

/-- Embedding of the Python `str.lower` method, applied characterwise. -/
def pyLower (s : String) : String :=
  String.mk (s.data.map pyLowerChar)

/-- Embedding of the Python substring test `sub in s` on strings. -/
def strContains (sub s : String) : Bool :=
  s.data.tails.any (fun t => sub.data.isPrefixOf t)

/-- A pandas DataFrame, reduced to what `rsp_analyze` inspects: an ordered
association of column names to column values (cell values as strings). -/
structure DataFrame where
  cols : List (String × List String)
deriving DecidableEq

/-- `df.columns.values`: the list of column names. -/
def DataFrame.columns (df : DataFrame) : List String :=
  df.cols.map Prod.fst

/-- `len(df)`: the number of rows, i.e. the length of the first column (a
pandas frame is rectangular, so every column has this length). -/
def DataFrame.len (df : DataFrame) : Nat :=
  match df.cols with
  | [] => 0
  | (_, v) :: _ => v.length

/-- `df[name]`: the values of the column called `name` (first match; `[]`
when the column is absent — `rsp_analyze` only uses this lookup after
checking that the column exists). -/
def DataFrame.getCol (df : DataFrame) (name : String) : List String :=
  ((df.cols.find? (fun p => p.1 = name)).map Prod.snd).getD []

/-- `series.value_counts()[0]`: `value_counts` lists the multiplicity of
each distinct value in descending order, so its first entry is the
multiplicity of the most frequent value — the maximum multiplicity over the
entries of the series. -/
def value_counts_first (l : List String) : Nat :=
  (l.map (fun v => l.count v)).foldr max 0

/-- The `data` argument of `rsp_analyze`: either a dict of epochs (Python
dicts iterate in insertion order, hence a list of key-frame pairs) or a
single DataFrame. -/
inductive PyData where
  | dict (epochs : List (String × DataFrame))
  | frame (df : DataFrame)
deriving DecidableEq

/-- The sub-epoch window `subepoch_rate`, a list such as `[None, None]` or
`[1, 3]`; `rsp_analyze` only passes it through. -/
abbrev SubepochRate := List (Option Int)

/-- The observable outcome of a call to `rsp_analyze`: which collaborator is
invoked with which arguments, or which exception escapes. -/
inductive RspResult where
  /-- `rsp_eventrelated(data, subepoch_rate=subepoch_rate)` is called and
  its result returned. -/
  | eventRelated (data : PyData) (subepoch_rate : SubepochRate)
  /-- `rsp_intervalrelated(data, sampling_rate)` is called and its result
  returned. -/
  | intervalRelated (data : PyData) (sampling_rate : Nat)
  /-- `raise ValueError(msg)` runs. -/
  | valueError (msg : String)
  /-- a local variable is read before any assignment to it ran
  (`UnboundLocalError`). -/
  | unboundLocalError (name : String)
  /-- the lookup `value_counts()[0]` fails because the series is empty. -/
  | lookupError
  /-- division by a zero `sampling_rate`. -/
  | zeroDivisionError
deriving DecidableEq

/-- The exact `ValueError` message raised by `rsp_analyze` (the doubled word
`extract extract` is as in the source). -/
def wrongInputMsg : String :=
  "NeuroKit error: rsp_analyze(): Wrong input or method, we couldn\x27t extract extract epochs features."

/-- The column names the event-related branch ends up checking: the loop
`for i in data: colnames = data[i].columns.values` rebinds `colnames`, so a
dict contributes only the columns of its last epoch (`none` when the dict is
empty and `colnames` stays unassigned); a DataFrame contributes its own
columns. -/
def collected_colnames (data : PyData) : Option (List String) :=
  match data with
  | .dict epochs => epochs.getLast?.map (fun p => p.2.columns)
  | .frame df => some df.columns

/-- `rsp_analyze` after the `method = method.lower()` normalization. -/
def rsp_analyze_lowered (data : PyData) (sampling_rate : Nat) (method : String)
    (subepoch_rate : SubepochRate) : RspResult :=
  if method ∈ ["event-related", "event", "epoch"] then
    match collected_colnames data with
    | none => .unboundLocalError "colnames"
    | some colnames =>
      if (colnames.filter (fun i => strContains "Label" i)).length = 0 then
        .valueError wrongInputMsg
      else
        .eventRelated data subepoch_rate
  else if method ∈ ["interval-related", "interval", "resting-state"] then
    .intervalRelated data sampling_rate
  else if method ∈ ["auto"] then
    match data with
    | .dict epochs =>
      match epochs.getLast? with
      | none => .unboundLocalError "duration"
      | some p =>
        if sampling_rate = 0 then .zeroDivisionError
        else if ((p.2.len : ℚ) / (sampling_rate : ℚ)) ≥ 10 then
          .intervalRelated data sampling_rate
        else
          .eventRelated data subepoch_rate
    | .frame df =>
      if "Label" ∈ df.columns then
        if df.getCol "Label" = [] then .lookupError
        else if sampling_rate = 0 then .zeroDivisionError
        else if ((value_counts_first (df.getCol "Label") : ℚ) / (sampling_rate : ℚ)) ≥ 10 then
          .intervalRelated data sampling_rate
        else
          .eventRelated data subepoch_rate
      else
        if sampling_rate = 0 then .zeroDivisionError
        else if ((df.len : ℚ) / (sampling_rate : ℚ)) ≥ 10 then
          .intervalRelated data sampling_rate
        else
          .eventRelated data subepoch_rate
  else
    .unboundLocalError "features"

/-- `rsp_analyze(data, sampling_rate, method, subepoch_rate)` (the Python
defaults are `sampling_rate=1000`, `method="auto"`,
`subepoch_rate=[None, None]`). -/
def rsp_analyze (data : PyData) (sampling_rate : Nat) (method : String)
    (subepoch_rate : SubepochRate) : RspResult :=
  rsp_analyze_lowered data sampling_rate (pyLower method) subepoch_rate

/-- A 500-row single-column table, for the worked example of the spec. -/
def df500 : DataFrame := ⟨[("RSP_Rate", List.replicate 500 "0")]⟩

/-- A 1500-row single-column table, for the worked example of the spec. -/
def df1500 : DataFrame := ⟨[("RSP_Rate", List.replicate 1500 "0")]⟩

/-- Lowercasing a character twice is the same as lowercasing it once. -/
theorem pyLowerChar_idem (c : Char) : pyLowerChar (pyLowerChar c) = pyLowerChar c := by
  unfold pyLowerChar
  by_cases h : 65 ≤ c.toNat ∧ c.toNat ≤ 90
  · rw [if_pos h]
    obtain ⟨h1, h2⟩ := h
    generalize hg : c.toNat = n at h1 h2
    interval_cases n <;> decide
  · rw [if_neg h, if_neg h]

/-- Lowercasing a string twice is the same as lowercasing it once. -/
theorem pyLower_idem (s : String) : pyLower (pyLower s) = pyLower s := by
  show String.mk (List.map pyLowerChar (List.map pyLowerChar s.data)) = _
  rw [List.map_map]
  exact congrArg String.mk (List.map_congr_left (fun a _ => pyLowerChar_idem a))

/-- Over the rationals, `n / m ≥ 10` is the same as `10 * m ≤ n` for a
positive denominator; used to evaluate the duration threshold on concrete
inputs. -/
theorem rat_div_ge_ten (n m : Nat) (hm : 0 < m) :
    ((n : ℚ) / (m : ℚ) ≥ 10) ↔ 10 * m ≤ n := by
  rw [ge_iff_le, le_div_iff₀ (by exact_mod_cast hm)]
  exact_mod_cast Iff.rfl

/-- Every member of a list of naturals is bounded by the fold of `max`. -/
theorem le_foldr_max (L : List Nat) (x : Nat) (hx : x ∈ L) : x ≤ L.foldr max 0 := by
  induction L with
  | nil => cases hx
  | cons a t ih =>
    rcases List.mem_cons.mp hx with h | h
    · subst h; exact le_max_left _ _
    · exact le_trans (ih h) (le_max_right _ _)

/-- The fold of `max` over a list of naturals is zero or one of its members. -/
theorem foldr_max_mem (L : List Nat) : L.foldr max 0 = 0 ∨ L.foldr max 0 ∈ L := by
  induction L with
  | nil => left; rfl
  | cons a t ih =>
    rcases max_choice a (t.foldr max 0) with h | h
    · right; rw [List.foldr_cons, h]; exact List.mem_cons_self a t
    · rw [List.foldr_cons, h]
      rcases ih with h0 | hmem
      · left; exact h0
      · right; exact List.mem_cons_of_mem a hmem

/-- No value occurs in a list more often than `value_counts_first` reports. -/
theorem count_le_value_counts_first (l : List String) (w : String) :
    l.count w ≤ value_counts_first l := by
  by_cases hw : w ∈ l
  · exact le_foldr_max _ _ (List.mem_map_of_mem (fun v => l.count v) hw)
  · rw [List.count_eq_zero.mpr hw]; exact Nat.zero_le _

/-- On a non-empty list, `value_counts_first` is the multiplicity of an
actual member of the list. -/
theorem value_counts_first_is_mode (l : List String) (h : l ≠ []) :
    ∃ v ∈ l, l.count v = value_counts_first l := by
  rcases foldr_max_mem (l.map (fun v => l.count v)) with h0 | hmem
  · exfalso
    obtain ⟨a, t, rfl⟩ := List.exists_cons_of_ne_nil h
    have h1 : (a :: t).count a ≤ value_counts_first (a :: t) :=
      count_le_value_counts_first (a :: t) a
    have h2 : 0 < (a :: t).count a := List.count_pos_iff.mpr (List.mem_cons_self a t)
    rw [value_counts_first] at h1
    omega
  · obtain ⟨v, hv, hcount⟩ := List.mem_map.mp hmem
    exact ⟨v, hv, hcount⟩

/-- A call to `rsp_analyze` is a call to `rsp_analyze_lowered` on the
lowercased method. -/
theorem rsp_analyze_eq_lowered (data : PyData) (sr : Nat) (se : SubepochRate)
    (m m' : String) (h : pyLower m = m') :
    rsp_analyze data sr m se = rsp_analyze_lowered data sr m' se := by
  unfold rsp_analyze
  rw [h]

/-- C1: with the method normalized to `auto` and the data a single table
without a `Label` column, the duration is the row count divided by the
sampling rate, and the call delegates to the interval-related analyzer iff
that duration is at least 10 seconds, otherwise to the event-related
analyzer with the sub-epoch window. -/
theorem auto_single_table_dispatch (df : DataFrame) (sr : Nat) (se : SubepochRate)
    (m : String) (hm : pyLower m = "auto") (hsr : 0 < sr) (hno : "Label" ∉ df.columns) :
    rsp_analyze (.frame df) sr m se =
      if ((df.len : ℚ) / (sr : ℚ)) ≥ 10 then .intervalRelated (.frame df) sr
      else .eventRelated (.frame df) se := by
  rw [rsp_analyze_eq_lowered _ _ _ _ _ hm]
  unfold rsp_analyze_lowered
  rw [if_neg (by decide), if_neg (by decide), if_pos (by decide)]
  show (if "Label" ∈ df.columns then _ else _) = _
  rw [if_neg hno, if_neg (Nat.pos_iff_ne_zero.mp hsr)]

/-- Witness for C1, at the two worked examples of the spec: at a sampling
rate of 100, a 500-row table (5 s) takes the event-related path and a
1500-row table (15 s) takes the interval-related path. -/
theorem auto_single_table_dispatch_witness :
    rsp_analyze (.frame df500) 100 "auto" [none, none] =
      .eventRelated (.frame df500) [none, none] ∧
    rsp_analyze (.frame df1500) 100 "auto" [none, none] =
      .intervalRelated (.frame df1500) 100 := by
  have h500 : df500.len = 500 := by
    rw [df500, DataFrame.len]
    exact List.length_replicate 500 "0"
  have h1500 : df1500.len = 1500 := by
    rw [df1500, DataFrame.len]
    exact List.length_replicate 1500 "0"
  constructor
  · rw [auto_single_table_dispatch df500 100 [none, none] "auto" rfl (by decide) (by decide)]
    rw [if_neg]
    rw [rat_div_ge_ten _ _ (by decide), h500]
    decide
  · rw [auto_single_table_dispatch df1500 100 [none, none] "auto" rfl (by decide) (by decide)]
    rw [if_pos]
    rw [rat_div_ge_ten _ _ (by decide), h1500]
    decide

/-- Counterexample to C2: on an empty mapping with method `event-related`,
nothing is collected — so in particular no collected column name contains
`Label` — yet the call raises `UnboundLocalError` for `colnames` (the loop
body never runs and line 80 reads the unassigned local), never the claimed
input-validation `ValueError`. -/
theorem event_related_empty_mapping_counterexample :
    rsp_analyze (.dict []) 1000 "event-related" [none, none] =
      .unboundLocalError "colnames" ∧
    (∀ msg, rsp_analyze (.dict []) 1000 "event-related" [none, none] ≠
      .valueError msg) := by
  constructor
  · rfl
  · intro msg h
    cases h

/-- C2 amended: with the method an event-related synonym, when the
code-collected column names exist (the data is a single table or a
non-empty mapping) the call raises the `ValueError` iff no collected name
contains the substring `Label`, and otherwise delegates to the
event-related analyzer with the data and the sub-epoch window unchanged;
on an empty mapping the collection never assigns `colnames` and the call
raises `UnboundLocalError` instead. -/
theorem event_related_label_check (data : PyData) (sr : Nat) (se : SubepochRate)
    (m : String) (hm : m ∈ ["event-related", "event", "epoch"]) :
    rsp_analyze data sr m se =
      match collected_colnames data with
      | none => .unboundLocalError "colnames"
      | some cs =>
        if (cs.filter (fun i => strContains "Label" i)).length = 0 then
          .valueError wrongInputMsg
        else
          .eventRelated data se := by
  fin_cases hm <;>
  · rw [rsp_analyze_eq_lowered _ _ _ _ _ rfl]
    unfold rsp_analyze_lowered
    rw [if_pos (by decide)]

/-- Witness for the amended C2: a single table without any `Label`-named
column raises the `ValueError`, one with a `Label` column delegates to the
event-related analyzer, and an empty mapping raises `UnboundLocalError`. -/
theorem event_related_label_check_witness :
    rsp_analyze (.frame ⟨[("RSP_Rate", ["1"])]⟩) 1000 "event-related" [none, none] =
      .valueError wrongInputMsg ∧
    rsp_analyze (.frame ⟨[("Label", ["1"]), ("RSP_Rate", ["2"])]⟩) 1000 "event-related"
        [none, none] =
      .eventRelated (.frame ⟨[("Label", ["1"]), ("RSP_Rate", ["2"])]⟩) [none, none] ∧
    rsp_analyze (.dict []) 1000 "epoch" [none, none] =
      .unboundLocalError "colnames" := by
  refine ⟨?_, ?_, ?_⟩
  · rw [event_related_label_check (.frame ⟨[("RSP_Rate", ["1"])]⟩) 1000 [none, none]
      "event-related" (by decide)]
    decide
  · rw [event_related_label_check (.frame ⟨[("Label", ["1"]), ("RSP_Rate", ["2"])]⟩) 1000
      [none, none] "event-related" (by decide)]
    decide
  · rw [event_related_label_check (.dict []) 1000 [none, none] "epoch" (by decide)]
    decide

/-- Counterexample to C3: in a mapping whose first epoch has a `Label`
column and whose last epoch has none, the event-related call raises the
`ValueError` — so validation did not consider the columns of all epochs,
only those of the last one. -/
theorem event_related_all_epochs_counterexample :
    rsp_analyze
        (.dict [("a", ⟨[("Label", ["x"])]⟩), ("b", ⟨[("RSP_Rate", ["y"])]⟩)])
        1000 "event-related" [none, none] = .valueError wrongInputMsg ∧
    ((⟨[("Label", ["x"])]⟩ : DataFrame).columns.filter
        (fun i => strContains "Label" i)).length ≠ 0 := by
  decide

/-- C3 amended: with the method an event-related synonym and the data a
mapping of epochs, the set of column names checked for a `Label` marker is
the column set of the last epoch in iteration order only — the loop rebinds
`colnames` on every iteration, so earlier epochs are ignored. -/
theorem event_related_last_epoch_only (epochs : List (String × DataFrame))
    (p : String × DataFrame) (sr : Nat) (se : SubepochRate) (m : String)
    (hm : m ∈ ["event-related", "event", "epoch"])
    (hl : epochs.getLast? = some p) :
    rsp_analyze (.dict epochs) sr m se =
      if (p.2.columns.filter (fun i => strContains "Label" i)).length = 0 then
        .valueError wrongInputMsg
      else
        .eventRelated (.dict epochs) se := by
  fin_cases hm <;>
  · rw [rsp_analyze_eq_lowered _ _ _ _ _ rfl]
    unfold rsp_analyze_lowered
    rw [if_pos (by decide)]
    show (match collected_colnames (.dict epochs) with
          | none => RspResult.unboundLocalError "colnames"
          | some colnames =>
            if (colnames.filter (fun i => strContains "Label" i)).length = 0 then
              RspResult.valueError wrongInputMsg
            else
              RspResult.eventRelated (.dict epochs) se) = _
    rw [show collected_colnames (.dict epochs) = some p.2.columns by
      rw [collected_colnames, hl]; rfl]

/-- Witness for the amended C3: the two-epoch mapping whose last epoch
lacks a `Label` column raises the `ValueError` even though its first epoch
has one. -/
theorem event_related_last_epoch_only_witness :
    rsp_analyze
        (.dict [("a", ⟨[("Label", ["x"])]⟩), ("b", ⟨[("RSP_Rate", ["y"])]⟩)])
        1000 "event-related" [none, none] = .valueError wrongInputMsg := by
  rw [event_related_last_epoch_only
    [("a", ⟨[("Label", ["x"])]⟩), ("b", ⟨[("RSP_Rate", ["y"])]⟩)]
    ("b", ⟨[("RSP_Rate", ["y"])]⟩) 1000 [none, none] "event-related" (by decide) rfl]
  decide

/-- C4: an unrecognized method (here `foo`) reaches `return features` with
the local `features` never assigned, so the call raises `UnboundLocalError`
— not the explicit mode-naming input error the spec requires. -/
theorem unknown_method_unbound_features :
    rsp_analyze (.frame ⟨[("RSP_Rate", ["1"])]⟩) 1000 "foo" [none, none] =
      .unboundLocalError "features" ∧
    (∀ msg, rsp_analyze (.frame ⟨[("RSP_Rate", ["1"])]⟩) 1000 "foo" [none, none] ≠
      .valueError msg) := by
  constructor
  · rfl
  · intro msg h
    cases h

/-- C5: with method `auto` and the data a mapping of epochs, the duration
used for dispatch is the sample count of the last epoch in iteration order
divided by the sampling rate, and the 10-second threshold selects
interval-related versus event-related delegation. -/
theorem auto_mapping_last_epoch_duration (epochs : List (String × DataFrame))
    (p : String × DataFrame) (sr : Nat) (se : SubepochRate)
    (hl : epochs.getLast? = some p) (hsr : 0 < sr) :
    rsp_analyze (.dict epochs) sr "auto" se =
      if ((p.2.len : ℚ) / (sr : ℚ)) ≥ 10 then .intervalRelated (.dict epochs) sr
      else .eventRelated (.dict epochs) se := by
  rw [rsp_analyze_eq_lowered _ _ _ _ _ rfl]
  unfold rsp_analyze_lowered
  rw [if_neg (by decide), if_neg (by decide), if_pos (by decide)]
  show (match epochs.getLast? with
        | none => RspResult.unboundLocalError "duration"
        | some p =>
          if sr = 0 then RspResult.zeroDivisionError
          else if ((p.2.len : ℚ) / (sr : ℚ)) ≥ 10 then
            RspResult.intervalRelated (.dict epochs) sr
          else RspResult.eventRelated (.dict epochs) se) = _
  rw [hl]
  show (if sr = 0 then RspResult.zeroDivisionError
        else if ((p.2.len : ℚ) / (sr : ℚ)) ≥ 10 then
          RspResult.intervalRelated (.dict epochs) sr
        else RspResult.eventRelated (.dict epochs) se) = _
  rw [if_neg (Nat.pos_iff_ne_zero.mp hsr)]

/-- Witness for C5: at a sampling rate of 100, a mapping whose last epoch
has 1500 samples goes interval-related even though its first epoch is
short, and with the epochs swapped (last epoch 100 samples) the same data
goes event-related. -/
theorem auto_mapping_last_epoch_duration_witness :
    rsp_analyze (.dict [("a", ⟨[("RSP_Rate", List.replicate 100 "0")]⟩),
                        ("b", ⟨[("RSP_Rate", List.replicate 1500 "0")]⟩)])
        100 "auto" [none, none] =
      .intervalRelated (.dict [("a", ⟨[("RSP_Rate", List.replicate 100 "0")]⟩),
                               ("b", ⟨[("RSP_Rate", List.replicate 1500 "0")]⟩)]) 100 ∧
    rsp_analyze (.dict [("a", ⟨[("RSP_Rate", List.replicate 1500 "0")]⟩),
                        ("b", ⟨[("RSP_Rate", List.replicate 100 "0")]⟩)])
        100 "auto" [none, none] =
      .eventRelated (.dict [("a", ⟨[("RSP_Rate", List.replicate 1500 "0")]⟩),
                            ("b", ⟨[("RSP_Rate", List.replicate 100 "0")]⟩)]) [none, none] := by
  have hb : (⟨[("RSP_Rate", List.replicate 1500 "0")]⟩ : DataFrame).len = 1500 := by
    rw [DataFrame.len]
    exact List.length_replicate 1500 "0"
  have ha : (⟨[("RSP_Rate", List.replicate 100 "0")]⟩ : DataFrame).len = 100 := by
    rw [DataFrame.len]
    exact List.length_replicate 100 "0"
  constructor
  · rw [auto_mapping_last_epoch_duration
      [("a", ⟨[("RSP_Rate", List.replicate 100 "0")]⟩),
       ("b", ⟨[("RSP_Rate", List.replicate 1500 "0")]⟩)]
      ("b", ⟨[("RSP_Rate", List.replicate 1500 "0")]⟩)
      100 [none, none] rfl (by decide)]
    rw [if_pos]
    rw [rat_div_ge_ten _ _ (by decide)]
    rw [show (("b", (⟨[("RSP_Rate", List.replicate 1500 "0")]⟩ : DataFrame))).2.len = 1500 from hb]
    decide
  · rw [auto_mapping_last_epoch_duration
      [("a", ⟨[("RSP_Rate", List.replicate 1500 "0")]⟩),
       ("b", ⟨[("RSP_Rate", List.replicate 100 "0")]⟩)]
      ("b", ⟨[("RSP_Rate", List.replicate 100 "0")]⟩)
      100 [none, none] rfl (by decide)]
    rw [if_neg]
    rw [rat_div_ge_ten _ _ (by decide)]
    rw [show (("b", (⟨[("RSP_Rate", List.replicate 100 "0")]⟩ : DataFrame))).2.len = 100 from ha]
    decide

/-- C6: with method `auto` and the data a single table with a `Label`
column, the duration used for dispatch is the count of the most frequent
`Label` value divided by the sampling rate — `value_counts_first` is the
multiplicity of an actual value of the column and bounds the multiplicity
of every value. -/
theorem auto_labeled_table_mode_duration (df : DataFrame) (sr : Nat) (se : SubepochRate)
    (hsr : 0 < sr) (hmem : "Label" ∈ df.columns) (hne : df.getCol "Label" ≠ []) :
    (∃ v ∈ df.getCol "Label",
        (df.getCol "Label").count v = value_counts_first (df.getCol "Label") ∧
        ∀ w, (df.getCol "Label").count w ≤ value_counts_first (df.getCol "Label")) ∧
    rsp_analyze (.frame df) sr "auto" se =
      if ((value_counts_first (df.getCol "Label") : ℚ) / (sr : ℚ)) ≥ 10 then
        .intervalRelated (.frame df) sr
      else
        .eventRelated (.frame df) se := by
  constructor
  · obtain ⟨v, hv, hcount⟩ := value_counts_first_is_mode (df.getCol "Label") hne
    exact ⟨v, hv, hcount, fun w => count_le_value_counts_first _ w⟩
  · rw [rsp_analyze_eq_lowered _ _ _ _ _ rfl]
    unfold rsp_analyze_lowered
    rw [if_neg (by decide), if_neg (by decide), if_pos (by decide)]
    show (if "Label" ∈ df.columns then _ else _) = _
    rw [if_pos hmem, if_neg hne, if_neg (Nat.pos_iff_ne_zero.mp hsr)]

/-- Witness for C6: at a sampling rate of 1, a table whose most frequent
label occurs twice goes event-related, and one whose most frequent label
occurs eleven times goes interval-related. -/
theorem auto_labeled_table_mode_duration_witness :
    rsp_analyze (.frame ⟨[("Label", ["a", "a", "b"]), ("RSP_Rate", ["1", "2", "3"])]⟩)
        1 "auto" [none, none] =
      .eventRelated (.frame ⟨[("Label", ["a", "a", "b"]), ("RSP_Rate", ["1", "2", "3"])]⟩)
        [none, none] ∧
    rsp_analyze (.frame ⟨[("Label",
        ["a", "a", "a", "a", "a", "a", "a", "a", "a", "a", "a", "b"])]⟩)
        1 "auto" [none, none] =
      .intervalRelated (.frame ⟨[("Label",
        ["a", "a", "a", "a", "a", "a", "a", "a", "a", "a", "a", "b"])]⟩) 1 := by
  constructor
  · rw [(auto_labeled_table_mode_duration
      ⟨[("Label", ["a", "a", "b"]), ("RSP_Rate", ["1", "2", "3"])]⟩ 1 [none, none]
      (by decide) (by decide) (by decide)).2]
    rw [if_neg]
    rw [rat_div_ge_ten _ _ (by decide)]
    decide
  · rw [(auto_labeled_table_mode_duration
      ⟨[("Label", ["a", "a", "a", "a", "a", "a", "a", "a", "a", "a", "a", "b"])]⟩
      1 [none, none] (by decide) (by decide) (by decide)).2]
    rw [if_pos]
    rw [rat_div_ge_ten _ _ (by decide)]
    decide

/-- C7: with the method an interval-related synonym, the call delegates
directly to the interval-related analyzer with the data and the sampling
rate, for every input shape, with no validation and no error of its own. -/
theorem interval_related_direct (data : PyData) (sr : Nat) (se : SubepochRate)
    (m : String) (hm : m ∈ ["interval-related", "interval", "resting-state"]) :
    rsp_analyze data sr m se = .intervalRelated data sr := by
  fin_cases hm <;> rfl

/-- Witness for C7: even an empty mapping — which other paths reject or
choke on — is passed straight through to the interval-related analyzer. -/
theorem interval_related_direct_witness :
    rsp_analyze (.dict []) 55 "resting-state" [none, none] =
      .intervalRelated (.dict []) 55 :=
  interval_related_direct (.dict []) 55 [none, none] "resting-state" (by decide)

/-- C8: method dispatch is case-insensitive — a call with method `m` and a
call with the lowercased `m` produce the same result, for every data,
sampling rate and sub-epoch window. -/
theorem method_case_insensitive (data : PyData) (sr : Nat) (se : SubepochRate)
    (m : String) :
    rsp_analyze data sr m se = rsp_analyze data sr (pyLower m) se := by
  unfold rsp_analyze
  rw [pyLower_idem]

/-- C9: every call either delegates — handing the data, the sub-epoch
window and the sampling rate through unchanged — or fails with an
exception; the dispatcher itself computes nothing else and alters none of
its inputs. -/
theorem dispatcher_pure_passthrough (data : PyData) (sr : Nat) (m : String)
    (se : SubepochRate) :
    rsp_analyze data sr m se = .eventRelated data se ∨
    rsp_analyze data sr m se = .intervalRelated data sr ∨
    rsp_analyze data sr m se = .valueError wrongInputMsg ∨
    (∃ v, rsp_analyze data sr m se = .unboundLocalError v) ∨
    rsp_analyze data sr m se = .lookupError ∨
    rsp_analyze data sr m se = .zeroDivisionError := by
  unfold rsp_analyze rsp_analyze_lowered
  repeat' split
  all_goals first
    | (left; rfl)
    | (right; left; rfl)
    | (right; right; left; rfl)
    | (right; right; right; left; exact ⟨_, rfl⟩)
    | (right; right; right; right; left; rfl)
    | (right; right; right; right; right; rfl)

/-- C10: with method `auto` and an empty mapping, the duration loop never
runs, so reading `duration` raises `UnboundLocalError` instead of
returning a features table — for every sampling rate and sub-epoch
window. -/
theorem auto_empty_mapping_unbound_duration (sr : Nat) (se : SubepochRate) :
    rsp_analyze (.dict []) sr "auto" se = .unboundLocalError "duration" := rfl

end NeuroKit
